import Mathlib

/-!
Verification of the feature-reconstruction and inference-orchestration layer
of the AI-Movie-Hit-Predictor service (`project_components/code/app.py`).

The embedding models floats by rationals (`ℚ`) where the code computes with
plain arithmetic, and by reals (`ℝ`) where the transcendental `np.expm1`
appears.  External collaborators (the pickled estimators and scalers, the
reference dataset's medians) are parameters: they enter as explicit
environment records, and the theorems quantify over them.
-/

namespace MoviePredictor

/-- Raw input record: the `MovieFeatures` pydantic model (app.py lines 90-101),
ten optional fields, all defaulting to null. -/
structure MovieFeatures where
  budget : Option ℚ := none
  runtime : Option ℚ := none
  genres : Option (List String) := none
  cast_count : Option ℚ := none
  director_popularity : Option ℚ := none
  release_month : Option ℤ := none
  release_day : Option ℤ := none
  original_language : Option String := none
  vote_average : Option ℚ := none
  vote_count : Option ℚ := none
deriving DecidableEq

/-- Python `input_dict.get(key, d) or d` on a float field: `None` and the
falsy value `0` both yield the default `d` (app.py lines 178-183). -/
def orDefault (x : Option ℚ) (d : ℚ) : ℚ :=
  match x with
  | none => d
  | some v => if v = 0 then d else v

/-- Python `input_dict.get(key, d) or d` on an int field (release_month). -/
def orDefaultInt (x : Option ℤ) (d : ℤ) : ℤ :=
  match x with
  | none => d
  | some v => if v = 0 then d else v

/-- `budget = input_dict.get('budget', 0) or 0` (app.py line 178). -/
def resolveBudget (r : MovieFeatures) : ℚ := orDefault r.budget 0

/-- `runtime = input_dict.get('runtime', 100) or 100` (app.py line 179). -/
def resolveRuntime (r : MovieFeatures) : ℚ := orDefault r.runtime 100

/-- `cast_count = input_dict.get('cast_count', 10) or 10` (app.py line 180). -/
def resolveCastCount (r : MovieFeatures) : ℚ := orDefault r.cast_count 10

/-- `release_month = input_dict.get('release_month', 6) or 6` (app.py line 181). -/
def resolveReleaseMonth (r : MovieFeatures) : ℤ := orDefaultInt r.release_month 6

/-- `vote_average = input_dict.get('vote_average', 6.0) or 6.0` (app.py line 182). -/
def resolveVoteAverage (r : MovieFeatures) : ℚ := orDefault r.vote_average 6

/-- `vote_count = input_dict.get('vote_count', 100) or 100` (app.py line 183). -/
def resolveVoteCount (r : MovieFeatures) : ℚ := orDefault r.vote_count 100

/-- `genres = input_dict.get('genres', []) or []` (app.py line 184): `None`
and the empty list both give `[]`, a non-empty list is kept. -/
def resolveGenres (r : MovieFeatures) : List String :=
  match r.genres with
  | none => []
  | some l => l

/-- `release_quarter = (release_month - 1) // 3 + 1` (app.py line 191);
Python `//` is floor division. -/
def releaseQuarter (r : MovieFeatures) : ℤ :=
  (resolveReleaseMonth r - 1).fdiv 3 + 1

/-- `is_summer_release = 1 if release_month in [6, 7, 8] else 0` (line 192). -/
def isSummerRelease (r : MovieFeatures) : ℤ :=
  if resolveReleaseMonth r = 6 ∨ resolveReleaseMonth r = 7 ∨ resolveReleaseMonth r = 8
  then 1 else 0

/-- `is_holiday_season = 1 if release_month in [11, 12] else 0` (line 193). -/
def isHolidaySeason (r : MovieFeatures) : ℤ :=
  if resolveReleaseMonth r = 11 ∨ resolveReleaseMonth r = 12 then 1 else 0

/-- `genre_count = len(genres) if genres else 1` (app.py line 196). -/
def genreCount (r : MovieFeatures) : ℤ :=
  if resolveGenres r = [] then 1 else (resolveGenres r).length

/-- `is_multi_genre = 1 if genre_count > 1 else 0` (app.py line 197). -/
def isMultiGenre (r : MovieFeatures) : ℤ :=
  if genreCount r > 1 then 1 else 0

/-- `popularity` approximation `(vote_count / 10.0) * (vote_average / 5.0)`
(app.py line 224). -/
def popularityFeature (r : MovieFeatures) : ℚ :=
  (resolveVoteCount r / 10) * (resolveVoteAverage r / 5)

/-- A value stored in a feature dict.  The direct-passthrough tier copies the
raw field verbatim, so a string field or the genres list can land in the dict;
every other tier produces a number. -/
inductive FVal where
  | num (q : ℚ)
  | str (s : String)
  | strList (l : List String)
deriving DecidableEq

/-- The direct-map tier `if feat in input_dict and input_dict[feat] is not
None` (app.py line 213): `input_dict` has exactly the ten pydantic field
names as keys; a non-null value is used verbatim. -/
def directLookup (r : MovieFeatures) (f : String) : Option FVal :=
  if f = "budget" then r.budget.map FVal.num
  else if f = "runtime" then r.runtime.map FVal.num
  else if f = "genres" then r.genres.map FVal.strList
  else if f = "cast_count" then r.cast_count.map FVal.num
  else if f = "director_popularity" then r.director_popularity.map FVal.num
  else if f = "release_month" then r.release_month.map (fun n => FVal.num n)
  else if f = "release_day" then r.release_day.map (fun n => FVal.num n)
  else if f = "original_language" then r.original_language.map FVal.str
  else if f = "vote_average" then r.vote_average.map FVal.num
  else if f = "vote_count" then r.vote_count.map FVal.num
  else none

/-- The environment the feature reconstructor reads: the two persisted
feature-name lists and the reference dataset (`04_engineered_features.csv`),
the latter exposed as its per-column medians plus the precomputed
`log1p(median(revenue))` (app.py lines 208-209).  `median f = none` models a
name that is not a column of the dataset. -/
structure DataEnv where
  regFeatures : List String
  clfFeatures : List String
  median : String → Option ℚ
  logRevMedian : ℚ

/-- One iteration of the regression feature loop (app.py lines 211-235):
direct map, then the derived names, then the `log_revenue` leakage guard,
then the dataset median, then the structural zero. -/
def resolveRegFeature (env : DataEnv) (r : MovieFeatures) (f : String) : FVal :=
  match directLookup r f with
  | some v => v
  | none =>
    if f = "release_year" then FVal.num 2024
    else if f = "release_quarter" then FVal.num (releaseQuarter r)
    else if f = "is_summer_release" then FVal.num (isSummerRelease r)
    else if f = "is_holiday_season" then FVal.num (isHolidaySeason r)
    else if f = "genre_count" then FVal.num (genreCount r)
    else if f = "is_multi_genre" then FVal.num (isMultiGenre r)
    else if f = "genre_budget_interaction" then FVal.num (resolveBudget r * (3/2))
    else if f = "popularity" then FVal.num (popularityFeature r)
    else if f = "log_revenue" then FVal.num env.logRevMedian
    else
      match env.median f with
      | some m => FVal.num m
      | none => FVal.num 0

/-- `X_reg_dict` after the loop over `models['reg_features']` (app.py lines
205-235), as an association list in insertion order. -/
def buildRegDict (env : DataEnv) (r : MovieFeatures) : List (String × FVal) :=
  env.regFeatures.map fun f => (f, resolveRegFeature env r f)

/-- `pd.DataFrame([d])[cols]`: reorder the dict `d` into the column order
`cols`, failing (KeyError) if a requested column is absent from the dict. -/
def selectColumns (cols : List String) (d : List (String × FVal)) :
    Option (List (String × FVal)) :=
  match cols with
  | [] => some []
  | c :: cs =>
      match d.lookup c, selectColumns cs d with
      | some v, some rest => some ((c, v) :: rest)
      | _, _ => none

/-- The regression feature row handed to `reg_scaler.transform`
(app.py line 238): the dict reordered by the persisted feature list. -/
def buildRegRow (env : DataEnv) (r : MovieFeatures) : Option (List (String × FVal)) :=
  selectColumns env.regFeatures (buildRegDict env r)

/-- One iteration of the classification feature loop (app.py lines 250-259):
reuse the regression dict (`if feat in X_reg_dict`), else direct map, else
dataset median, else zero.  No derived-computation tier of its own. -/
def resolveClfFeature (env : DataEnv) (r : MovieFeatures) (f : String) : FVal :=
  if f ∈ env.regFeatures then resolveRegFeature env r f
  else
    match directLookup r f with
    | some v => v
    | none =>
      match env.median f with
      | some m => FVal.num m
      | none => FVal.num 0

/-- `X_clf_dict` after the loop over `models['clf_features']` (lines 249-259). -/
def buildClfDict (env : DataEnv) (r : MovieFeatures) : List (String × FVal) :=
  env.clfFeatures.map fun f => (f, resolveClfFeature env r f)

/-- The classification feature row handed to `clf_scaler.transform`
(app.py line 261). -/
def buildClfRow (env : DataEnv) (r : MovieFeatures) : Option (List (String × FVal)) :=
  selectColumns env.clfFeatures (buildClfDict env r)

/-- `category_map = {0: 'Flop', 1: 'Average', 2: 'Hit', 3: 'Blockbuster'}`
with `.get(i, 'Average')` (app.py lines 267-268). -/
def categoryMap (i : ℤ) : String :=
  if i = 0 then "Flop"
  else if i = 1 then "Average"
  else if i = 2 then "Hit"
  else if i = 3 then "Blockbuster"
  else "Average"

/-- `np.max` over a nonempty list, as a left fold. -/
def listMax (x : ℚ) (xs : List ℚ) : ℚ := xs.foldl max x

/-- The confidence block (app.py lines 270-274): `np.max(proba)` when
`predict_proba` succeeds on a nonempty vector; the bare `except` turns any
failure — including `np.max` on an empty vector — into the constant `0.85`. -/
def confidenceRaw (p : Except String (List ℚ)) : ℚ :=
  match p with
  | .error _ => 85/100
  | .ok [] => 85/100
  | .ok (x :: xs) => listMax x xs

/-- The confidence actually returned: `min(confidence, 1.0)` (app.py
line 301). -/
def finalConfidence (p : Except String (List ℚ)) : ℚ :=
  min (confidenceRaw p) 1

/-- `np.expm1` applied to the regression model's log-space output
(app.py line 245). -/
noncomputable def expm1 (x : ℝ) : ℝ := Real.exp x - 1

/-- The plausibility correction (app.py lines 276-281): a prediction below a
tenth of the budget is replaced outright by `budget * (1.2 + vote_average / 10)`. -/
noncomputable def correctedRevenue (rev budget va : ℝ) : ℝ :=
  if rev < budget * 0.1 then budget * (1.2 + va / 10) else rev

/-- The final `predicted_revenue` as a function of the record and of the
regression model's raw log-space output: `expm1` inversion (line 245)
followed by the plausibility correction (lines 276-281), with `budget` and
`vote_average` the resolved raw values of lines 178 and 182. -/
noncomputable def finalRevenue (r : MovieFeatures) (logPred : ℝ) : ℝ :=
  correctedRevenue (expm1 logPred) ((resolveBudget r : ℚ) : ℝ) ((resolveVoteAverage r : ℚ) : ℝ)

/-- The fields of the response relevant to the verified layer
(`PredictionResponse`, app.py lines 116-123 and 297-308). -/
structure Response where
  predicted_revenue : ℝ
  category : String
  confidence : ℚ

/-- The fallible external collaborators of one `/predict` call: the two
scalers' `transform`, the two models' `predict`, and the classifier's
optional `predict_proba`.  An `Except.error` models a raised exception
carrying that message. -/
structure InferEnv where
  regTransform : List (String × FVal) → Except String (List ℚ)
  regPredict : List ℚ → Except String ℝ
  clfTransform : List (String × FVal) → Except String (List ℚ)
  clfPredict : List ℚ → Except String ℤ
  clfPredictProba : List ℚ → Except String (List ℚ)

/-- The body of `predict` after feature reconstruction (app.py lines
238-312): scale and run the regression model, scale and run the classifier,
map the class index, compute confidence with its local fallback, apply the
`expm1` inversion and plausibility correction, and wrap any escaping
exception into the single request-level failure
`"Prediction failed: " ++ msg` (lines 310-312).  A `KeyError` from column
reindexing is impossible (see the totality theorem) but modelled faithfully
as the same request-level failure. -/
noncomputable def predictOne (env : DataEnv) (m : InferEnv) (r : MovieFeatures) :
    Except String Response :=
  match buildRegRow env r with
  | none => .error "Prediction failed: KeyError"
  | some xReg =>
  match m.regTransform xReg with
  | .error e => .error ("Prediction failed: " ++ e)
  | .ok xRegScaled =>
  match m.regPredict xRegScaled with
  | .error e => .error ("Prediction failed: " ++ e)
  | .ok logPred =>
  match buildClfRow env r with
  | none => .error "Prediction failed: KeyError"
  | some xClf =>
  match m.clfTransform xClf with
  | .error e => .error ("Prediction failed: " ++ e)
  | .ok xClfScaled =>
  match m.clfPredict xClfScaled with
  | .error e => .error ("Prediction failed: " ++ e)
  | .ok clsIdx =>
    .ok { predicted_revenue := finalRevenue r logPred
          category := categoryMap clsIdx
          confidence := finalConfidence (m.clfPredictProba xClfScaled) }

/-- The seven artifacts read by `load_models` (app.py lines 53-79), as
cache-key / filename pairs in load order. -/
def artifactFiles : List (String × String) :=
  [("reg_model", "best_regression_model.pkl"),
   ("clf_model", "best_classification_model.pkl"),
   ("reg_scaler", "regression_scaler.pkl"),
   ("clf_scaler", "classification_scaler.pkl"),
   ("reg_features", "regression_feature_columns.pkl"),
   ("clf_features", "classification_feature_columns.pkl"),
   ("category_defs", "category_definitions.pkl")]

/-- The body of the `try` block in `load_models`: artifacts are loaded one by
one, each inserted into the global `_models_cache` **before** the next file is
opened; a missing file raises there and then, leaving the keys inserted so
far.  `present file = false` models a `FileNotFoundError` for that file.
Returns the cache state and, on failure, the missing filename. -/
def loadLoop (present : String → Bool) :
    List (String × String) → List String → List String × Option String
  | [], cache => (cache, none)
  | (key, file) :: rest, cache =>
      if present file then loadLoop present rest (cache ++ [key])
      else (cache, some file)

/-- `load_models` (app.py lines 46-86) as a transition on the global
`_models_cache`, abstracted to its list of keys: a non-empty cache is
returned as-is (`if _models_cache: return _models_cache`); otherwise the
seven artifacts are loaded in order, and a missing file is surfaced as
`RuntimeError("Failed to load models: ...")` (line 86).  The result pairs
the new cache state with the call's outcome. -/
def load_models (present : String → Bool) (cache : List String) :
    List String × Except String (List String) :=
  if cache.isEmpty then
    match loadLoop present artifactFiles [] with
    | (c, none) => (c, .ok c)
    | (c, some file) => (c, .error ("Failed to load models: " ++ file))
  else (cache, .ok cache)

/-- A filesystem with every artifact present except the classification
model, the second file in load order. -/
def presentExceptClf : String → Bool :=
  fun file => file ≠ "best_classification_model.pkl"

/-- A minimal data environment: empty feature lists, no dataset columns. -/
def emptyDataEnv : DataEnv :=
  { regFeatures := []
    clfFeatures := []
    median := fun _ => none
    logRevMedian := 0 }

/-- Collaborators that all succeed except `predict_proba`, which raises a
shape-mismatch error. -/
def probaFailingModels : InferEnv :=
  { regTransform := fun _ => .ok []
    regPredict := fun _ => .ok 0
    clfTransform := fun _ => .ok []
    clfPredict := fun _ => .ok 1
    clfPredictProba := fun _ => .error "shape mismatch in predict_proba" }

/-- Collaborators whose regression scaler raises on `transform`. -/
def transformFailingModels : InferEnv :=
  { regTransform := fun _ => .error "shape mismatch in transform"
    regPredict := fun _ => .ok 0
    clfTransform := fun _ => .ok []
    clfPredict := fun _ => .ok 1
    clfPredictProba := fun _ => .ok [1] }

/-! ### Helper lemmas -/

theorem orDefault_none (d : ℚ) : orDefault none d = d := rfl

theorem orDefault_some_zero (d : ℚ) : orDefault (some 0) d = d := by
  simp [orDefault]

theorem orDefault_some_ne (v d : ℚ) (h : v ≠ 0) : orDefault (some v) d = v := by
  simp [orDefault, h]

theorem orDefault_nonneg (x : Option ℚ) (d : ℚ) (hd : 0 ≤ d)
    (hx : ∀ v ∈ x, 0 ≤ v) : 0 ≤ orDefault x d := by
  cases x with
  | none => exact hd
  | some v =>
      by_cases hv : v = 0
      · simp [orDefault, hv, hd]
      · simpa [orDefault, hv] using hx v rfl

theorem resolveBudget_nonneg (r : MovieFeatures) (hb : ∀ b ∈ r.budget, 0 ≤ b) :
    0 ≤ resolveBudget r :=
  orDefault_nonneg _ _ le_rfl hb

theorem resolveVoteAverage_nonneg (r : MovieFeatures)
    (hv : ∀ v ∈ r.vote_average, 0 ≤ v) : 0 ≤ resolveVoteAverage r :=
  orDefault_nonneg _ _ (by norm_num) hv

theorem lookup_map_self (g : String → FVal) :
    ∀ (feats : List String) (f : String), f ∈ feats →
      (feats.map fun x => (x, g x)).lookup f = some (g f)
  | [], _, hf => absurd hf (by simp)
  | a :: as, f, hf => by
      by_cases hfa : f = a
      · subst hfa
        simp [List.lookup]
      · have hf1 : f ∈ as := by
          cases hf with
          | head => exact absurd rfl hfa
          | tail _ h => exact h
        have hba : (f == a) = false := beq_eq_false_iff_ne.mpr hfa
        simpa [List.lookup, hba] using lookup_map_self g as f hf1

theorem selectColumns_map (g : String → FVal) (feats : List String) :
    ∀ (cols : List String), (∀ c ∈ cols, c ∈ feats) →
      selectColumns cols (feats.map fun x => (x, g x)) =
        some (cols.map fun c => (c, g c))
  | [], _ => rfl
  | c :: cs, hsub => by
      have hc := lookup_map_self g feats c (hsub c (by simp))
      have hcs := selectColumns_map g feats cs fun d hd => hsub d (by simp [hd])
      simp [selectColumns, hc, hcs]

theorem map_fst_map_pair (g : String → FVal) (l : List String) :
    (l.map fun f => (f, g f)).map Prod.fst = l := by
  induction l with
  | nil => rfl
  | cons a as ih => simp [ih]

theorem le_listMax : ∀ (xs : List ℚ) (x : ℚ), x ≤ listMax x xs
  | [], _ => le_rfl
  | y :: ys, x =>
      le_trans (le_max_left x y) (le_listMax ys (max x y))

/-! ### C1 — absence vs explicit zero -/

/-- C1 counterexample: the claim says an explicitly supplied zero is used as
given by the fallback policy, but `vote_average = 0` resolves to the default
`6.0` (Python `0 or 6.0`), and the derived `popularity` is computed from that
default (`(100/10)*(6/5) = 12`) instead of from the supplied zero
(`(100/10)*(0/5) = 0`). -/
theorem c1_counterexample :
    ({ vote_average := some 0 } : MovieFeatures).vote_average = some 0 ∧
    resolveVoteAverage { vote_average := some 0 } = 6 ∧
    popularityFeature { vote_average := some 0 } = 12 ∧
    (6 : ℚ) ≠ 0 ∧ (12 : ℚ) ≠ 0 := by
  refine ⟨rfl, ?_, ?_, by norm_num, by norm_num⟩
  · simp [resolveVoteAverage, orDefault]
  · norm_num [popularityFeature, resolveVoteCount, resolveVoteAverage, orDefault]

/-- C1 (amended): in the resolved raw values feeding the derived computation,
an explicit zero (or an explicitly empty genres list) triggers the clamped
default exactly like absence — `x or default` conflates the two — while a
non-zero explicit value is used as given; only the direct-passthrough tier of
the feature vector (`is not None`) uses an explicitly supplied zero verbatim. -/
theorem c1_falsy_triggers_defaults (r : MovieFeatures) :
    (r.budget = none ∨ r.budget = some 0 → resolveBudget r = 0) ∧
    (r.runtime = none ∨ r.runtime = some 0 → resolveRuntime r = 100) ∧
    (r.cast_count = none ∨ r.cast_count = some 0 → resolveCastCount r = 10) ∧
    (r.release_month = none ∨ r.release_month = some 0 → resolveReleaseMonth r = 6) ∧
    (r.vote_average = none ∨ r.vote_average = some 0 → resolveVoteAverage r = 6) ∧
    (r.vote_count = none ∨ r.vote_count = some 0 → resolveVoteCount r = 100) ∧
    (r.genres = none ∨ r.genres = some [] → resolveGenres r = []) ∧
    (∀ q : ℚ, q ≠ 0 → r.budget = some q → resolveBudget r = q) ∧
    (∀ q : ℚ, q ≠ 0 → r.runtime = some q → resolveRuntime r = q) ∧
    (∀ q : ℚ, q ≠ 0 → r.cast_count = some q → resolveCastCount r = q) ∧
    (∀ q : ℤ, q ≠ 0 → r.release_month = some q → resolveReleaseMonth r = q) ∧
    (∀ q : ℚ, q ≠ 0 → r.vote_average = some q → resolveVoteAverage r = q) ∧
    (∀ q : ℚ, q ≠ 0 → r.vote_count = some q → resolveVoteCount r = q) ∧
    (∀ q : ℚ, r.vote_average = some q →
      directLookup r "vote_average" = some (FVal.num q)) := by
  refine ⟨?_, ?_, ?_, ?_, ?_, ?_, ?_, ?_, ?_, ?_, ?_, ?_, ?_, ?_⟩
  · rintro (h | h) <;> simp [resolveBudget, h, orDefault]
  · rintro (h | h) <;> simp [resolveRuntime, h, orDefault]
  · rintro (h | h) <;> simp [resolveCastCount, h, orDefault]
  · rintro (h | h) <;> simp [resolveReleaseMonth, h, orDefaultInt]
  · rintro (h | h) <;> simp [resolveVoteAverage, h, orDefault]
  · rintro (h | h) <;> simp [resolveVoteCount, h, orDefault]
  · rintro (h | h) <;> simp [resolveGenres, h]
  · intro q hq h; simp [resolveBudget, h, orDefault, hq]
  · intro q hq h; simp [resolveRuntime, h, orDefault, hq]
  · intro q hq h; simp [resolveCastCount, h, orDefault, hq]
  · intro q hq h; simp [resolveReleaseMonth, h, orDefaultInt, hq]
  · intro q hq h; simp [resolveVoteAverage, h, orDefault, hq]
  · intro q hq h; simp [resolveVoteCount, h, orDefault, hq]
  · intro q h; simp [directLookup, h]

/-- C1 witness: the amended statement at concrete records. -/
theorem c1_falsy_triggers_defaults_witness :
    resolveVoteAverage { vote_average := some 0 } = 6 ∧
    resolveRuntime { runtime := some 0 } = 100 ∧
    resolveRuntime { runtime := some 95 } = 95 :=
  ⟨(c1_falsy_triggers_defaults { vote_average := some 0 }).2.2.2.2.1 (Or.inr rfl),
   (c1_falsy_triggers_defaults { runtime := some 0 }).2.1 (Or.inr rfl),
   (c1_falsy_triggers_defaults { runtime := some 95 }).2.2.2.2.2.2.2.2.1 95
     (by norm_num) rfl⟩

/-! ### C2 — artifact loader atomicity -/

/-- C2: the loader is **not** atomic on failure.  With every artifact present
except `best_classification_model.pkl` (the second file in load order), the
first call fails with the hard load error but leaves `reg_model` in the
global cache; the second call sees a non-empty cache and returns that
one-key partial bundle as if it were fully loaded, never retrying the
missing six artifacts. -/
theorem c2_partial_bundle_observable :
    (load_models presentExceptClf []).2 =
      .error "Failed to load models: best_classification_model.pkl" ∧
    (load_models presentExceptClf []).1 = ["reg_model"] ∧
    (load_models presentExceptClf ["reg_model"]).2 = .ok ["reg_model"] ∧
    ["reg_model"] ≠ artifactFiles.map Prod.fst := by
  refine ⟨rfl, rfl, rfl, by decide⟩

/-! ### C3 — plausibility correction is an exact replacement rule -/

/-- C3: for every record and every regression output, the final revenue is
the heuristic `budget * (1.2 + vote_average/10)` exactly when the
`expm1`-inverted model output is strictly below `budget * 0.1`, and is the
`expm1`-inverted output unchanged otherwise — a full replacement, never a
blend. -/
theorem c3_correction_replaces (r : MovieFeatures) (logPred : ℝ) :
    (expm1 logPred < ((resolveBudget r : ℚ) : ℝ) * 0.1 →
      finalRevenue r logPred =
        ((resolveBudget r : ℚ) : ℝ) * (1.2 + ((resolveVoteAverage r : ℚ) : ℝ) / 10)) ∧
    (¬ expm1 logPred < ((resolveBudget r : ℚ) : ℝ) * 0.1 →
      finalRevenue r logPred = expm1 logPred) := by
  unfold finalRevenue correctedRevenue
  constructor
  · intro h
    simp [h]
  · intro h
    simp [h]

/-- C3 witness: `budget = 100000000`, the model returning log-revenue `0`
(so the linear-scale estimate is `expm1 0 = 0 < 10^7`): the result is the
heuristic `10^8 * (1.2 + 6/10) = 1.8 * 10^8`, with `6` the resolved default
vote average. -/
theorem c3_correction_replaces_witness :
    finalRevenue { budget := some 100000000 } 0 = (100000000 : ℝ) * (1.2 + 6 / 10) := by
  have hb : resolveBudget { budget := some 100000000 } = 100000000 := by
    norm_num [resolveBudget, orDefault]
  have hv : resolveVoteAverage { budget := some 100000000 } = 6 := rfl
  have h := (c3_correction_replaces { budget := some 100000000 } 0).1
  rw [hb, hv] at h
  have he : expm1 0 = 0 := by simp [expm1]
  have := h (by rw [he]; norm_num)
  rw [this]
  norm_num

/-! ### C4 — plausibility floor -/

/-- C4: for every record whose supplied budget and vote average are
non-negative (the data model declares budget ≥ 0 and vote_average on a 0-10
scale) and for **any** value the regression estimator returns, the final
revenue is at least a tenth of the resolved budget. -/
theorem c4_plausibility_floor (r : MovieFeatures) (logPred : ℝ)
    (hb : ∀ b ∈ r.budget, 0 ≤ b) (hv : ∀ v ∈ r.vote_average, 0 ≤ v) :
    ((resolveBudget r : ℚ) : ℝ) * 0.1 ≤ finalRevenue r logPred := by
  have hb1 : (0 : ℝ) ≤ ((resolveBudget r : ℚ) : ℝ) := by
    exact_mod_cast resolveBudget_nonneg r hb
  have hv1 : (0 : ℝ) ≤ ((resolveVoteAverage r : ℚ) : ℝ) := by
    exact_mod_cast resolveVoteAverage_nonneg r hv
  unfold finalRevenue correctedRevenue
  split
  · have hfac : (0.1 : ℝ) ≤ 1.2 + ((resolveVoteAverage r : ℚ) : ℝ) / 10 := by
      nlinarith
    exact mul_le_mul_of_nonneg_left hfac hb1
  · exact le_of_not_lt (by assumption)

/-- C4 witness: the empty record (resolved budget 0) at regression output 1. -/
theorem c4_plausibility_floor_witness :
    ((resolveBudget {} : ℚ) : ℝ) * 0.1 ≤ finalRevenue {} 1 :=
  c4_plausibility_floor {} 1 (by simp) (by simp)

/-! ### C5 — failure propagation from the collaborators -/

/-- C5 counterexample: a shape-mismatch failure raised by the classifier's
`predict_proba` does **not** propagate as a request-level failure — the bare
`except` of app.py lines 270-274 recovers it locally and the prediction
succeeds with the fallback confidence `0.85`. -/
theorem c5_counterexample :
    probaFailingModels.clfPredictProba [] = .error "shape mismatch in predict_proba" ∧
    predictOne emptyDataEnv probaFailingModels {} =
      .ok { predicted_revenue := 0, category := "Average", confidence := 85/100 } := by
  constructor
  · rfl
  · have he : expm1 0 = 0 := by simp [expm1]
    have hrev : finalRevenue ({} : MovieFeatures) 0 = 0 := by
      unfold finalRevenue correctedRevenue
      rw [he]
      norm_num [resolveBudget, orDefault]
    have h0 : predictOne emptyDataEnv probaFailingModels {} =
        .ok { predicted_revenue := finalRevenue {} 0
              category := categoryMap 1
              confidence := finalConfidence (.error "shape mismatch in predict_proba") } := rfl
    rw [h0, hrev]
    norm_num [categoryMap, finalConfidence, confidenceRaw]

/-- C5 (amended): failures raised by either scaler's `transform` or either
model's `predict` propagate to the caller as the single request-level failure
`"Prediction failed: <message>"`, with no retry and no local recovery; a
failure of `predict_proba` alone, however, is locally recovered by the bare
`except` into a successful prediction with the fixed confidence `0.85`. -/
theorem c5_error_propagation (env : DataEnv) (m : InferEnv) (r : MovieFeatures)
    (e : String) :
    (∀ row, buildRegRow env r = some row →
      m.regTransform row = .error e →
      predictOne env m r = .error ("Prediction failed: " ++ e)) ∧
    (∀ row xs, buildRegRow env r = some row →
      m.regTransform row = .ok xs → m.regPredict xs = .error e →
      predictOne env m r = .error ("Prediction failed: " ++ e)) ∧
    (∀ row xs y row2, buildRegRow env r = some row →
      m.regTransform row = .ok xs → m.regPredict xs = .ok y →
      buildClfRow env r = some row2 → m.clfTransform row2 = .error e →
      predictOne env m r = .error ("Prediction failed: " ++ e)) ∧
    (∀ row xs y row2 ys, buildRegRow env r = some row →
      m.regTransform row = .ok xs → m.regPredict xs = .ok y →
      buildClfRow env r = some row2 → m.clfTransform row2 = .ok ys →
      m.clfPredict ys = .error e →
      predictOne env m r = .error ("Prediction failed: " ++ e)) ∧
    (∀ row xs y row2 ys c, buildRegRow env r = some row →
      m.regTransform row = .ok xs → m.regPredict xs = .ok y →
      buildClfRow env r = some row2 → m.clfTransform row2 = .ok ys →
      m.clfPredict ys = .ok c → m.clfPredictProba ys = .error e →
      predictOne env m r =
        .ok { predicted_revenue := finalRevenue r y
              category := categoryMap c
              confidence := 85/100 }) := by
  refine ⟨?_, ?_, ?_, ?_, ?_⟩
  · intro row hrow ht
    unfold predictOne
    simp only [hrow, ht]
  · intro row xs hrow ht hp
    unfold predictOne
    simp only [hrow, ht, hp]
  · intro row xs y row2 hrow ht hp hrow2 hct
    unfold predictOne
    simp only [hrow, ht, hp, hrow2, hct]
  · intro row xs y row2 ys hrow ht hp hrow2 hct hcp
    unfold predictOne
    simp only [hrow, ht, hp, hrow2, hct, hcp]
  · intro row xs y row2 ys c hrow ht hp hrow2 hct hcp hproba
    unfold predictOne
    simp only [hrow, ht, hp, hrow2, hct, hcp, hproba]
    norm_num [finalConfidence, confidenceRaw]

/-- C5 witness: a regression scaler that raises on `transform` yields the
request-level failure. -/
theorem c5_error_propagation_witness :
    predictOne emptyDataEnv transformFailingModels {} =
      .error "Prediction failed: shape mismatch in transform" :=
  (c5_error_propagation emptyDataEnv transformFailingModels {}
      "shape mismatch in transform").1 [] rfl rfl

/-! ### C6 — feature-vector totality and ordering -/

/-- C6: for every environment and every raw record (the empty record
included), the column reindexing of each family's feature dict succeeds —
every persisted feature name got a value, so there is no `KeyError` and no
null — and the resulting row lists exactly that family's feature names, in
the persisted order, before being handed to that family's scaler. -/
theorem c6_feature_vector_totality (env : DataEnv) (r : MovieFeatures) :
    buildRegRow env r = some (buildRegDict env r) ∧
    (buildRegDict env r).map Prod.fst = env.regFeatures ∧
    buildClfRow env r = some (buildClfDict env r) ∧
    (buildClfDict env r).map Prod.fst = env.clfFeatures := by
  refine ⟨?_, ?_, ?_, ?_⟩
  · exact selectColumns_map (resolveRegFeature env r) env.regFeatures
      env.regFeatures fun c hc => hc
  · exact map_fst_map_pair (resolveRegFeature env r) env.regFeatures
  · exact selectColumns_map (resolveClfFeature env r) env.clfFeatures
      env.clfFeatures fun c hc => hc
  · exact map_fst_map_pair (resolveClfFeature env r) env.clfFeatures

/-! ### C7 — category closure with lenient default -/

/-- C7: every numeric class index maps into the fixed four-label set via
`{0: Flop, 1: Average, 2: Hit, 3: Blockbuster}`, and any index outside 0-3
yields `"Average"` rather than an error. -/
theorem c7_category_closure (i : ℤ) :
    categoryMap i ∈ ["Flop", "Average", "Hit", "Blockbuster"] ∧
    categoryMap 0 = "Flop" ∧ categoryMap 1 = "Average" ∧
    categoryMap 2 = "Hit" ∧ categoryMap 3 = "Blockbuster" ∧
    (i ≠ 0 → i ≠ 1 → i ≠ 2 → i ≠ 3 → categoryMap i = "Average") := by
  refine ⟨?_, rfl, rfl, rfl, rfl, ?_⟩
  · unfold categoryMap
    split
    · simp
    · split
      · simp
      · split
        · simp
        · split <;> simp
  · intro h0 h1 h2 h3
    simp [categoryMap, h0, h1, h2, h3]

/-- C7 witness: the out-of-range index 7 yields `"Average"` and stays in the
closed label set. -/
theorem c7_category_closure_witness :
    categoryMap 7 ∈ ["Flop", "Average", "Hit", "Blockbuster"] ∧
    categoryMap 7 = "Average" :=
  ⟨(c7_category_closure 7).1,
   (c7_category_closure 7).2.2.2.2.2 (by decide) (by decide) (by decide) (by decide)⟩

/-! ### C8 — confidence bounds and definition -/

/-- C8: whenever the classifier's probability output is a genuine probability
vector (entries non-negative), the returned confidence lies in `[0, 1]`; a
supplied nonempty vector gives its maximum clamped to at most `1.0`, and an
unavailable probability output gives the fixed fallback `0.85`. -/
theorem c8_confidence_bounds (p : Except String (List ℚ))
    (h : ∀ l, p = .ok l → ∀ x ∈ l, 0 ≤ x) :
    0 ≤ finalConfidence p ∧ finalConfidence p ≤ 1 ∧
    (∀ e, p = .error e → finalConfidence p = 85/100) ∧
    (∀ x xs, p = .ok (x :: xs) → finalConfidence p = min (listMax x xs) 1) := by
  refine ⟨?_, ?_, ?_, ?_⟩
  · match p with
    | .error _ => norm_num [finalConfidence, confidenceRaw]
    | .ok [] => norm_num [finalConfidence, confidenceRaw]
    | .ok (x :: xs) =>
        have hx : 0 ≤ x := h (x :: xs) rfl x (by simp)
        have hmax : (0 : ℚ) ≤ listMax x xs := le_trans hx (le_listMax xs x)
        simpa [finalConfidence, confidenceRaw] using
          le_min hmax (by norm_num : (0 : ℚ) ≤ 1)
  · match p with
    | .error _ => norm_num [finalConfidence, confidenceRaw]
    | .ok [] => norm_num [finalConfidence, confidenceRaw]
    | .ok (x :: xs) => simp [finalConfidence, confidenceRaw]
  · intro e he
    subst he
    norm_num [finalConfidence, confidenceRaw]
  · intro x xs hxs
    subst hxs
    simp [finalConfidence, confidenceRaw]

/-- C8 witness: the probability vector `[1/2, 3/4]` gives a confidence inside
the bounds, equal to its clamped maximum. -/
theorem c8_confidence_bounds_witness :
    0 ≤ finalConfidence (.ok [1/2, 3/4]) ∧
    finalConfidence (.ok [1/2, 3/4]) ≤ 1 ∧
    finalConfidence (.ok [1/2, 3/4]) = min (listMax (1/2) [3/4]) 1 := by
  have h : ∀ l, (Except.ok [1/2, 3/4] : Except String (List ℚ)) = .ok l →
      ∀ x ∈ l, (0 : ℚ) ≤ x := by
    intro l hl
    cases hl
    intro x hx
    simp at hx
    rcases hx with rfl | rfl <;> norm_num
  exact ⟨(c8_confidence_bounds _ h).1, (c8_confidence_bounds _ h).2.1,
    (c8_confidence_bounds _ h).2.2.2 (1/2) [3/4] rfl⟩

/-! ### C9 — determinism of the prediction path -/

/-- C9: the whole single-record path — feature reconstruction, scaling,
estimation, `expm1` inversion, plausibility correction, category mapping and
confidence — is a pure function of the artifact bundle, the reference
dataset's medians and the raw record; two runs on the same inputs are
identical, revenue and category alike.  No randomness source appears
anywhere in the embedded path. -/
theorem c9_determinism (env : DataEnv) (m : InferEnv) (r : MovieFeatures) :
    predictOne env m r = predictOne env m r ∧
    (predictOne env m r).map Response.predicted_revenue =
      (predictOne env m r).map Response.predicted_revenue ∧
    (predictOne env m r).map Response.category =
      (predictOne env m r).map Response.category :=
  ⟨rfl, rfl, rfl⟩

/-! ### C10 — zero-budget edge case -/

/-- C10: with the raw budget absent or zero (resolved budget `0`), the
correction triggers exactly when the `expm1`-inverted regression output is
negative, and then returns exactly `0 = budget * (1.2 + vote_average/10)`;
otherwise the non-negative inverted output is returned unchanged, so the
result is never negative though it can be exactly `0`. -/
theorem c10_zero_budget (r : MovieFeatures) (logPred : ℝ)
    (hb : resolveBudget r = 0) :
    (expm1 logPred < ((resolveBudget r : ℚ) : ℝ) * 0.1 ↔ expm1 logPred < 0) ∧
    (expm1 logPred < 0 →
      finalRevenue r logPred = 0 ∧
      ((resolveBudget r : ℚ) : ℝ) * (1.2 + ((resolveVoteAverage r : ℚ) : ℝ) / 10) = 0) ∧
    (0 ≤ expm1 logPred → finalRevenue r logPred = expm1 logPred) ∧
    0 ≤ finalRevenue r logPred := by
  have hb0 : ((resolveBudget r : ℚ) : ℝ) = 0 := by rw [hb]; norm_num
  have hfr : finalRevenue r logPred =
      if expm1 logPred < 0 then 0 else expm1 logPred := by
    unfold finalRevenue correctedRevenue
    rw [hb0]
    simp
  refine ⟨?_, ?_, ?_, ?_⟩
  · rw [hb0]
    norm_num
  · intro h
    constructor
    · rw [hfr, if_pos h]
    · rw [hb0]
      ring
  · intro h
    rw [hfr, if_neg (not_lt.mpr h)]
  · rw [hfr]
    split
    · exact le_rfl
    · exact le_of_not_lt (by assumption)

/-- C10 witness: the empty record with a regression model returning log
revenue `-1` (so `expm1 = 1/e - 1 < 0`): the prediction is exactly `0`. -/
theorem c10_zero_budget_witness :
    finalRevenue {} (-1) = 0 ∧ 0 ≤ finalRevenue {} (-1) := by
  have hneg : expm1 (-1) < 0 := by
    have : Real.exp (-1) < 1 := Real.exp_lt_one_iff.mpr (by norm_num)
    simp only [expm1]
    linarith
  have h := c10_zero_budget {} (-1) rfl
  exact ⟨(h.2.1 hneg).1, h.2.2.2⟩

end MoviePredictor
